import Mathlib

/-!
Verification of the `simplechar` Linux character device driver
(`src/simplechar.c`). The device state, the file operations
(`device_open`, `device_release`, `device_read`, `device_write`),
the `/proc` status view and the module initialisation are modelled
as pure Lean functions over an explicit state record. Machine
integers are modelled as `Nat`/`Int` (the relevant quantities —
offsets, lengths, a capacity of at most 4096 — never overflow).
The user-space copy (`copy_to_user` / `copy_from_user`) and the
interruptible mutex acquisition are external, possibly failing
effects; they are modelled by explicit parameters: `intr : Bool`
(the wait for the mutex was interrupted by a signal) and
`unc : Nat` (the number of bytes `copy_*_user` failed to copy —
`0` means the copy succeeded, exactly the C return convention).
-/

/-- Kernel error codes returned (negated) by the driver. -/
inductive KErr where
  | ERESTARTSYS   -- interrupted while waiting for the mutex
  | EFAULT        -- copy_to_user / copy_from_user failed
  | ENOSPC        -- write offset beyond the buffer capacity
  | EINVAL        -- invalid module parameter
  | ENOMEM        -- allocation failure
  deriving DecidableEq, Repr

/-- `struct simplechar_dev`: the device state guarded by the mutex
(plus the atomic `open_count`).  `buffer` always has length
`buffer_size`; `buffer_len` is the current valid-data length. -/
structure SimplecharDev where
  buffer : List Nat          -- char *buffer
  buffer_len : Nat           -- size_t buffer_len
  buffer_size : Nat          -- size_t buffer_size
  open_count : Int           -- atomic_t open_count
  read_count : Nat           -- unsigned long read_count
  write_count : Nat          -- unsigned long write_count
  deriving DecidableEq, Repr

/-- `device_open`: atomically increments `open_count`, returns 0. -/
def device_open (dev : SimplecharDev) : SimplecharDev × Int :=
  ({ dev with open_count := dev.open_count + 1 }, 0)

/-- `device_release`: atomically decrements `open_count`, returns 0. -/
def device_release (dev : SimplecharDev) : SimplecharDev × Int :=
  ({ dev with open_count := dev.open_count - 1 }, 0)

/-- Outcome of a `device_read` call: the device state after the call,
the caller's file offset after the call, the return value, and the
bytes delivered to user space on success. -/
structure ReadResult where
  dev : SimplecharDev
  off : Nat
  ret : Except KErr Nat
  data : List Nat
  deriving Repr

/-- `device_read(filep, buffer, len, offset)`.  `off` is `*offset` on
entry, `len` the requested length; `intr` says the interruptible
mutex acquisition was interrupted; `unc` is the `copy_to_user`
return value (bytes not copied, `0` = success). -/
def device_read (dev : SimplecharDev) (off len : Nat)
    (intr : Bool) (unc : Nat) : ReadResult :=
  if intr then
    -- mutex_lock_interruptible failed: return -ERESTARTSYS
    ⟨dev, off, .error .ERESTARTSYS, []⟩
  else if off ≥ dev.buffer_len then
    -- end of data: bytes_read stays 0, goto out
    ⟨dev, off, .ok 0, []⟩
  else
    -- bytes_read = min(len, buffer_len - *offset)
    let bytes_read := min len (dev.buffer_len - off)
    if unc ≠ 0 then
      -- copy_to_user failed: bytes_read = -EFAULT, goto out
      ⟨dev, off, .error .EFAULT, []⟩
    else
      -- *offset += bytes_read; read_count++
      ⟨{ dev with read_count := dev.read_count + 1 },
       off + bytes_read, .ok bytes_read,
       (dev.buffer.drop off).take bytes_read⟩

/-- Outcome of a `device_write` call: device state after the call,
the caller's file offset after the call, and the return value. -/
structure WriteResult where
  dev : SimplecharDev
  off : Nat
  ret : Except KErr Nat
  deriving Repr

/-- Overwrite `buf` starting at position `off` with `src`
(the effect of `memcpy(buf + off, src, src.length)`). -/
def listWrite (buf : List Nat) (off : Nat) (src : List Nat) : List Nat :=
  buf.take off ++ src ++ buf.drop (off + src.length)

/-- `device_write(filep, buffer, len, offset)`.  `off` is `*offset` on
entry, `src` the user-space bytes (`len = src.length`); `intr` says
the mutex wait was interrupted; `unc` is the `copy_from_user` return
value (bytes not copied, `0` = success) — on failure the prefix that
was copied before the fault has already reached the buffer. -/
def device_write (dev : SimplecharDev) (off : Nat) (src : List Nat)
    (intr : Bool) (unc : Nat) : WriteResult :=
  if intr then
    -- mutex_lock_interruptible failed: return -ERESTARTSYS
    ⟨dev, off, .error .ERESTARTSYS⟩
  else if off ≥ dev.buffer_size then
    -- write attempt beyond buffer size: -ENOSPC
    ⟨dev, off, .error .ENOSPC⟩
  else
    -- bytes_written = min(len, buffer_size - *offset)
    let bytes_written := min src.length (dev.buffer_size - off)
    if unc ≠ 0 then
      -- copy_from_user failed after copying a prefix: -EFAULT
      ⟨{ dev with
          buffer := listWrite dev.buffer off (src.take (bytes_written - unc)) },
       off, .error .EFAULT⟩
    else
      -- *offset += bytes_written; buffer_len = max; write_count++
      ⟨{ dev with
          buffer := listWrite dev.buffer off (src.take bytes_written),
          buffer_len :=
            if off + bytes_written > dev.buffer_len then off + bytes_written
            else dev.buffer_len,
          write_count := dev.write_count + 1 },
       off + bytes_written, .ok bytes_written⟩

/-- `device_ioctl`: no-op, returns 0 for every command/argument. -/
def device_ioctl (dev : SimplecharDev) (_cmd _arg : Nat) : SimplecharDev × Int :=
  (dev, 0)

/-- The fields printed by `simplechar_proc_show` (the status view). -/
structure Snapshot where
  buffer_size : Nat
  buffer_len : Nat
  open_count : Int
  read_count : Nat
  write_count : Nat
  deriving DecidableEq, Repr

/-- `simplechar_proc_show`: read-only snapshot of the counters. -/
def snapshot (dev : SimplecharDev) : Snapshot :=
  ⟨dev.buffer_size, dev.buffer_len, dev.open_count,
   dev.read_count, dev.write_count⟩

/-- `BUFFER_SIZE_MAX` (4096). -/
def BUFFER_SIZE_MAX : Int := 4096

/-- `simplechar_init`: validates the module parameters `buffer_size`
and `debug_level` (both C `int`, hence `Int`), then constructs the
device.  `allocOk` models the outcome of the two `kzalloc` calls
(`false` = allocation failure → `-ENOMEM`).  On success returns the
freshly constructed device together with the (possibly corrected)
debug level. -/
def simplechar_init (buffer_size debug_level : Int) (allocOk : Bool) :
    Except KErr (SimplecharDev × Int) :=
  if buffer_size ≤ 0 ∨ buffer_size > BUFFER_SIZE_MAX then
    .error .EINVAL
  else
    let dl := if debug_level < 0 ∨ debug_level > 3 then 1 else debug_level
    if allocOk then
      .ok ({ buffer := List.replicate buffer_size.toNat 0,
             buffer_len := 0,
             buffer_size := buffer_size.toNat,
             open_count := 0,
             read_count := 0,
             write_count := 0 }, dl)
    else
      .error .ENOMEM

/-! Concrete devices used by the witnesses. -/

/-- A freshly constructed device of capacity 16 (no data yet). -/
def devFresh : SimplecharDev :=
  { buffer := List.replicate 16 0, buffer_len := 0, buffer_size := 16,
    open_count := 0, read_count := 0, write_count := 0 }

/-- A capacity-16 device holding 10 valid bytes. -/
def devHalf : SimplecharDev :=
  { buffer := [48, 49, 50, 51, 52, 53, 54, 55, 56, 57, 0, 0, 0, 0, 0, 0],
    buffer_len := 10, buffer_size := 16,
    open_count := 0, read_count := 1, write_count := 1 }

/-- The ten bytes "0123456789". -/
def srcTen : List Nat := [48, 49, 50, 51, 52, 53, 54, 55, 56, 57]

/-- C1: a write at a valid offset (lock acquired, copy succeeding)
copies `min(length, capacity - offset)` bytes into the buffer,
advances the caller's offset by that amount, raises `buffer_len` to
the maximum of its old value and the new offset, increments
`write_count` by one, and returns the byte count. -/
theorem device_write_success_spec (dev : SimplecharDev) (off : Nat)
    (src : List Nat) (hoff : off < dev.buffer_size) :
    (device_write dev off src false 0).ret =
      .ok (min src.length (dev.buffer_size - off)) ∧
    (device_write dev off src false 0).dev.buffer =
      listWrite dev.buffer off (src.take (min src.length (dev.buffer_size - off))) ∧
    (device_write dev off src false 0).off =
      off + min src.length (dev.buffer_size - off) ∧
    (device_write dev off src false 0).dev.buffer_len =
      max dev.buffer_len (off + min src.length (dev.buffer_size - off)) ∧
    (device_write dev off src false 0).dev.write_count =
      dev.write_count + 1 := by
  have h1 : ¬ off ≥ dev.buffer_size := Nat.not_le.mpr hoff
  refine ⟨?_, ?_, ?_, ?_, ?_⟩ <;>
    simp [device_write, h1]
  split_ifs <;> omega

/-- C1 witness: capacity 16, `valid_length` 10, writing 10 bytes at
offset 10 copies 6 bytes, returns 6, and `valid_length` becomes 16. -/
theorem device_write_success_spec_witness :
    10 < devHalf.buffer_size ∧
    (device_write devHalf 10 srcTen false 0).ret = Except.ok 6 ∧
    (device_write devHalf 10 srcTen false 0).off = 16 ∧
    (device_write devHalf 10 srcTen false 0).dev.buffer_len = 16 ∧
    (device_write devHalf 10 srcTen false 0).dev.write_count = 2 := by
  have h := device_write_success_spec devHalf 10 srcTen (by decide)
  refine ⟨by decide, ?_, ?_, ?_, ?_⟩
  · simpa using h.1
  · simpa using h.2.2.1
  · simpa using h.2.2.2.1
  · simpa using h.2.2.2.2

/-- C2: a read at an offset below `valid_length` (lock acquired, copy
succeeding) returns `min(requested_length, valid_length - offset)`
bytes, delivers exactly `storage[offset : offset+bytes_to_copy]`,
advances the caller's offset by that amount, and increments
`read_count` by one. -/
theorem device_read_success_spec (dev : SimplecharDev) (off len : Nat)
    (hoff : off < dev.buffer_len) :
    (device_read dev off len false 0).ret =
      .ok (min len (dev.buffer_len - off)) ∧
    (device_read dev off len false 0).data =
      (dev.buffer.drop off).take (min len (dev.buffer_len - off)) ∧
    (device_read dev off len false 0).off =
      off + min len (dev.buffer_len - off) ∧
    (device_read dev off len false 0).dev.read_count =
      dev.read_count + 1 := by
  have h1 : ¬ off ≥ dev.buffer_len := Nat.not_le.mpr hoff
  refine ⟨?_, ?_, ?_, ?_⟩ <;> simp [device_read, h1]

/-- C2 witness: on the device holding "0123456789", a read of 20
bytes at offset 3 returns 7 bytes "3456789" and advances to 10. -/
theorem device_read_success_spec_witness :
    3 < devHalf.buffer_len ∧
    (device_read devHalf 3 20 false 0).ret = Except.ok 7 ∧
    (device_read devHalf 3 20 false 0).data = [51, 52, 53, 54, 55, 56, 57] ∧
    (device_read devHalf 3 20 false 0).off = 10 ∧
    (device_read devHalf 3 20 false 0).dev.read_count = 2 := by
  have h := device_read_success_spec devHalf 3 20 (by decide)
  refine ⟨by decide, ?_, ?_, ?_, ?_⟩
  · simpa using h.1
  · simpa [devHalf] using h.2.1
  · simpa using h.2.2.1
  · simpa using h.2.2.2

/-- C5: a write at `offset ≥ capacity` (lock acquired) fails with
`-ENOSPC` and leaves the whole device state and the caller's offset
unchanged, whatever the source and the copy outcome would have been. -/
theorem device_write_capacity_exceeded (dev : SimplecharDev) (off : Nat)
    (src : List Nat) (unc : Nat) (hoff : off ≥ dev.buffer_size) :
    (device_write dev off src false unc).ret = .error .ENOSPC ∧
    (device_write dev off src false unc).dev = dev ∧
    (device_write dev off src false unc).off = off := by
  refine ⟨?_, ?_, ?_⟩ <;> simp [device_write, hoff]

/-- C5 witness: writing at offset 16 on the capacity-16 device fails
with `-ENOSPC` and changes nothing. -/
theorem device_write_capacity_exceeded_witness :
    16 ≥ devHalf.buffer_size ∧
    (device_write devHalf 16 srcTen false 0).ret = Except.error KErr.ENOSPC ∧
    (device_write devHalf 16 srcTen false 0).dev = devHalf ∧
    (device_write devHalf 16 srcTen false 0).off = 16 :=
  ⟨by decide, device_write_capacity_exceeded devHalf 16 srcTen 0 (by decide)⟩

/-- C6: a read at `offset ≥ valid_length` (lock acquired) returns 0
bytes — end of data, not an error — whatever the requested length,
and leaves the device state and the caller's offset unchanged; on a
freshly constructed device (`valid_length = 0`) every read does so. -/
theorem device_read_end_of_data (dev : SimplecharDev) (off len unc : Nat)
    (hoff : off ≥ dev.buffer_len) :
    (device_read dev off len false unc).ret = .ok 0 ∧
    (device_read dev off len false unc).data = [] ∧
    (device_read dev off len false unc).dev = dev ∧
    (device_read dev off len false unc).off = off := by
  refine ⟨?_, ?_, ?_, ?_⟩ <;> simp [device_read, hoff]

/-- C6 witness: reading 20 bytes at offset 0 from the fresh device
(before any write) returns 0 bytes and mutates nothing. -/
theorem device_read_end_of_data_witness :
    0 ≥ devFresh.buffer_len ∧
    (device_read devFresh 0 20 false 0).ret = Except.ok 0 ∧
    (device_read devFresh 0 20 false 0).data = [] ∧
    (device_read devFresh 0 20 false 0).dev = devFresh ∧
    (device_read devFresh 0 20 false 0).off = 0 :=
  ⟨by decide, device_read_end_of_data devFresh 0 20 0 (by decide)⟩

/-- C3: writing a byte sequence `B` with `len(B) ≤ capacity` at
offset 0 (lock acquired, copy succeeding) and then reading `len(B)`
bytes from offset 0 returns exactly `B`. -/
theorem device_round_trip (dev : SimplecharDev) (B : List Nat)
    (hB : B.length ≤ dev.buffer_size) :
    (device_read (device_write dev 0 B false 0).dev 0 B.length false 0).data
      = B := by
  by_cases hsz : dev.buffer_size = 0
  · have hBnil : B = [] := List.length_eq_zero.mp (by omega)
    subst hBnil
    simp [device_write, device_read, hsz]
    split_ifs <;> rfl
  · have h0 : ¬ (0 ≥ dev.buffer_size) := by omega
    have hbw : min B.length dev.buffer_size = B.length := min_eq_left hB
    have hbuf : (device_write dev 0 B false 0).dev.buffer
        = B ++ dev.buffer.drop B.length := by
      simp [device_write, h0, hbw, listWrite]
    have hlen : B.length ≤ (device_write dev 0 B false 0).dev.buffer_len := by
      simp [device_write, h0, hbw]
      split_ifs <;> omega
    by_cases hel : (0 : Nat) ≥ (device_write dev 0 B false 0).dev.buffer_len
    · have hBnil : B = [] := List.length_eq_zero.mp (by omega)
      subst hBnil
      simp [device_read, hel]
    · have hm : min B.length ((device_write dev 0 B false 0).dev.buffer_len)
          = B.length := min_eq_left hlen
      simp [device_read, hel, hm, hbuf]

/-- C3 witness: writing "0123456789" at offset 0 to the fresh
capacity-16 device and reading 10 bytes back returns the same bytes. -/
theorem device_round_trip_witness :
    srcTen.length ≤ devFresh.buffer_size ∧
    (device_read (device_write devFresh 0 srcTen false 0).dev 0
      srcTen.length false 0).data = srcTen :=
  ⟨by decide, device_round_trip devFresh srcTen (by decide)⟩

/-- C4: from any state satisfying `buffer_len ≤ buffer_size`, every
operation — open, close, read, write (all paths, success or failure)
and the status snapshot — preserves `0 ≤ valid_length ≤ capacity`
(the lower bound holds by the type), and construction establishes it
(`buffer_len = 0`). -/
theorem valid_length_invariant (dev : SimplecharDev)
    (hinv : dev.buffer_len ≤ dev.buffer_size)
    (off len unc : Nat) (src : List Nat) (intr : Bool)
    (bs dl : Int) (allocOk : Bool) :
    (device_open dev).1.buffer_len ≤ (device_open dev).1.buffer_size ∧
    (device_release dev).1.buffer_len ≤ (device_release dev).1.buffer_size ∧
    (device_read dev off len intr unc).dev.buffer_len ≤
      (device_read dev off len intr unc).dev.buffer_size ∧
    (device_write dev off src intr unc).dev.buffer_len ≤
      (device_write dev off src intr unc).dev.buffer_size ∧
    (snapshot dev).buffer_len ≤ (snapshot dev).buffer_size ∧
    (∀ d dl2, simplechar_init bs dl allocOk = .ok (d, dl2) →
      d.buffer_len ≤ d.buffer_size) := by
  refine ⟨hinv, hinv, ?_, ?_, hinv, ?_⟩
  · simp only [device_read]
    split_ifs <;> simpa using hinv
  · simp only [device_write]
    split_ifs with h1 h2 h3 <;> simp [hinv]
    omega
  · intro d dl2 h
    simp only [simplechar_init] at h
    split_ifs at h <;> simp_all <;> (obtain ⟨rfl, h2⟩ := h; simp)

/-- C4 witness: the invariant conjunction instantiated on the
capacity-16 device holding 10 valid bytes. -/
theorem valid_length_invariant_witness :
    devHalf.buffer_len ≤ devHalf.buffer_size ∧
    ((device_open devHalf).1.buffer_len ≤ (device_open devHalf).1.buffer_size ∧
     (device_release devHalf).1.buffer_len ≤
       (device_release devHalf).1.buffer_size ∧
     (device_read devHalf 3 20 false 0).dev.buffer_len ≤
       (device_read devHalf 3 20 false 0).dev.buffer_size ∧
     (device_write devHalf 3 srcTen false 0).dev.buffer_len ≤
       (device_write devHalf 3 srcTen false 0).dev.buffer_size ∧
     (snapshot devHalf).buffer_len ≤ (snapshot devHalf).buffer_size ∧
     (∀ d dl2, simplechar_init 1024 1 true = .ok (d, dl2) →
       d.buffer_len ≤ d.buffer_size)) :=
  ⟨by decide,
   valid_length_invariant devHalf (by decide) 3 20 0 srcTen false 1024 1 true⟩

/-- C7: a read or write whose user-space copy fails (the copy being
reached: the offset is inside the data, resp. the capacity) returns
`-EFAULT`; the caller's offset, `read_count`, `write_count` and
`buffer_len` are all unchanged (a read leaves the whole device
unchanged; a failed write may have copied a prefix into `storage`). -/
theorem device_copy_fault_no_mutation (dev : SimplecharDev)
    (roff rlen woff unc : Nat) (src : List Nat) (hunc : unc ≠ 0)
    (hro : roff < dev.buffer_len) (hwo : woff < dev.buffer_size) :
    ((device_read dev roff rlen false unc).ret = .error .EFAULT ∧
     (device_read dev roff rlen false unc).dev = dev ∧
     (device_read dev roff rlen false unc).off = roff) ∧
    ((device_write dev woff src false unc).ret = .error .EFAULT ∧
     (device_write dev woff src false unc).off = woff ∧
     (device_write dev woff src false unc).dev.buffer_len = dev.buffer_len ∧
     (device_write dev woff src false unc).dev.read_count = dev.read_count ∧
     (device_write dev woff src false unc).dev.write_count
       = dev.write_count) := by
  have h1 : ¬ roff ≥ dev.buffer_len := Nat.not_le.mpr hro
  have h2 : ¬ woff ≥ dev.buffer_size := Nat.not_le.mpr hwo
  refine ⟨⟨?_, ?_, ?_⟩, ?_, ?_, ?_, ?_, ?_⟩ <;>
    simp [device_read, device_write, h1, h2, hunc]

/-- C7 witness: a copy fault (`unc = 3`) on a read at offset 3 and a
write at offset 10 of the capacity-16 device. -/
theorem device_copy_fault_no_mutation_witness :
    (3 : Nat) ≠ 0 ∧ 3 < devHalf.buffer_len ∧ 10 < devHalf.buffer_size ∧
    (((device_read devHalf 3 20 false 3).ret = .error .EFAULT ∧
      (device_read devHalf 3 20 false 3).dev = devHalf ∧
      (device_read devHalf 3 20 false 3).off = 3) ∧
     ((device_write devHalf 10 srcTen false 3).ret = .error .EFAULT ∧
      (device_write devHalf 10 srcTen false 3).off = 10 ∧
      (device_write devHalf 10 srcTen false 3).dev.buffer_len
        = devHalf.buffer_len ∧
      (device_write devHalf 10 srcTen false 3).dev.read_count
        = devHalf.read_count ∧
      (device_write devHalf 10 srcTen false 3).dev.write_count
        = devHalf.write_count)) :=
  ⟨by decide, by decide, by decide,
   device_copy_fault_no_mutation devHalf 3 20 10 3 srcTen
     (by decide) (by decide) (by decide)⟩

/-- C8: a read or write interrupted while waiting for the mutex
returns `-ERESTARTSYS` (a retryable failure) with the device state
and the caller's offset untouched; an uninterrupted call never
returns `-ERESTARTSYS`. -/
theorem device_interrupted_spec (dev : SimplecharDev)
    (off len unc : Nat) (src : List Nat) :
    ((device_read dev off len true unc).ret = .error .ERESTARTSYS ∧
     (device_read dev off len true unc).dev = dev ∧
     (device_read dev off len true unc).off = off ∧
     (device_read dev off len true unc).data = []) ∧
    ((device_write dev off src true unc).ret = .error .ERESTARTSYS ∧
     (device_write dev off src true unc).dev = dev ∧
     (device_write dev off src true unc).off = off) ∧
    (device_read dev off len false unc).ret ≠ .error .ERESTARTSYS ∧
    (device_write dev off src false unc).ret ≠ .error .ERESTARTSYS := by
  refine ⟨⟨rfl, rfl, rfl, rfl⟩, ⟨rfl, rfl, rfl⟩, ?_, ?_⟩ <;>
  · simp only [device_read, device_write]
    split_ifs <;> simp_all

/-- C10: a read call, on every exit path, leaves `storage`,
`buffer_len`, `buffer_size`, `write_count` and `open_count`
unchanged — only `read_count` and the caller's offset can move. -/
theorem device_read_frame (dev : SimplecharDev) (off len unc : Nat)
    (intr : Bool) :
    (device_read dev off len intr unc).dev.buffer = dev.buffer ∧
    (device_read dev off len intr unc).dev.buffer_len = dev.buffer_len ∧
    (device_read dev off len intr unc).dev.buffer_size = dev.buffer_size ∧
    (device_read dev off len intr unc).dev.write_count = dev.write_count ∧
    (device_read dev off len intr unc).dev.open_count = dev.open_count := by
  simp only [device_read]
  split_ifs <;> simp

/-- C9: module startup fails with `-EINVAL` (for every allocation
outcome, so the device is never constructed) exactly when the
configured capacity is below 1 or above `BUFFER_SIZE_MAX = 4096`;
an out-of-range verbosity with a valid capacity is non-fatal — the
device is constructed normally with the verbosity corrected to 1. -/
theorem simplechar_init_validation (bs dl : Int) :
    ((∀ allocOk, simplechar_init bs dl allocOk = .error .EINVAL) ↔
      (bs < 1 ∨ bs > 4096)) ∧
    ((1 ≤ bs ∧ bs ≤ 4096 ∧ (dl < 0 ∨ dl > 3)) →
      simplechar_init bs dl true =
        .ok ({ buffer := List.replicate bs.toNat 0, buffer_len := 0,
               buffer_size := bs.toNat, open_count := 0,
               read_count := 0, write_count := 0 }, 1)) := by
  constructor
  · constructor
    · intro h
      by_contra hc
      push_neg at hc
      have hcond : ¬ (bs ≤ 0 ∨ bs > BUFFER_SIZE_MAX) := by
        simp only [BUFFER_SIZE_MAX]; omega
      have := h true
      simp [simplechar_init, hcond] at this
    · intro hbs allocOk
      have hcond : bs ≤ 0 ∨ bs > BUFFER_SIZE_MAX := by
        simp only [BUFFER_SIZE_MAX]; omega
      simp [simplechar_init, hcond]
  · rintro ⟨hb1, hb2, hdl⟩
    have hcond : ¬ (bs ≤ 0 ∨ bs > BUFFER_SIZE_MAX) := by
      simp only [BUFFER_SIZE_MAX]; omega
    simp [simplechar_init, hcond, hdl]

/-- C9 witness: capacity 0 is rejected with `-EINVAL`; capacity 1024
with verbosity 9 constructs normally with verbosity corrected to 1. -/
theorem simplechar_init_validation_witness :
    simplechar_init 0 1 true = Except.error KErr.EINVAL ∧
    (1 ≤ (1024 : Int) ∧ (1024 : Int) ≤ 4096 ∧
      ((9 : Int) < 0 ∨ (9 : Int) > 3)) ∧
    simplechar_init 1024 9 true =
      Except.ok ({ buffer := List.replicate (1024 : Int).toNat 0,
                   buffer_len := 0, buffer_size := (1024 : Int).toNat,
                   open_count := 0, read_count := 0, write_count := 0 }, 1) := by
  refine ⟨?_, ⟨by decide, by decide, Or.inr (by decide)⟩, ?_⟩
  · exact ((simplechar_init_validation 0 1).1.mpr (by decide)) true
  · exact (simplechar_init_validation 1024 9).2
      ⟨by decide, by decide, Or.inr (by decide)⟩
